import Mathlib

/-!
Shallow embedding of the validator server (`src/server/app.py`) card
validation and administration logic.

Modelling conventions:
- A stored card document is a `CardRecord`; field values are the values read
  by `card_data.get(...)` with the source's defaults already applied
  (`status` defaults to "OK", `credits` to 0, `expiration_date` and
  `last_scan` to the empty string, which is falsy).
- Calendar dates are day numbers (`Int`); timestamps are seconds (`Int`).
  `datetime.strptime(s, "%Y-%m-%d")` / `datetime.fromisoformat` are modelled
  by a `DateField` / `TimeField` value: `absent` (missing field or empty
  string, falsy in Python), `malformed` (a truthy string whose parse raises
  `ValueError`), or `parsed d` (a truthy string parsing to `d`).
- `datetime.now()` is a single `Now` value carrying the current calendar
  date (`now.date()`) and the current timestamp.
- Firestore `doc_ref.update` calls are modelled by functional record update;
  each scan additionally reports how many `update` calls it executed, so
  that "performs no write" is expressible.
-/

/-- Value of a stored date-string field after Python truthiness and
`strptime(.., "%Y-%m-%d").date()` parsing. -/
inductive DateField where
  | absent : DateField
  | malformed : DateField
  | parsed : Int → DateField
deriving DecidableEq, Repr

/-- Value of the stored `last_scan` field after Python truthiness and
`datetime.fromisoformat` parsing. -/
inductive TimeField where
  | absent : TimeField
  | malformed : TimeField
  | parsed : Int → TimeField
deriving DecidableEq, Repr

/-- The current wall clock, as used by the server: `date` is
`datetime.now().date()` as a day number, `ts` is the instant as seconds. -/
structure Now where
  date : Int
  ts : Int
deriving DecidableEq, Repr

/-- One card document from the `cards` collection, with the read defaults of
`scan_card_info` applied. -/
structure CardRecord where
  status : String
  credits : Int
  expiration_date : DateField
  name : String
  last_scan : TimeField
deriving DecidableEq, Repr

/-- The JSON body the server answers a scan with: the 200 body has no
`error` field and carries the card name; the 404 body carries the error
message and no name. -/
structure WireResponse where
  error : Option String
  status : String
  credits : Int
  expiration_date : DateField
  name : Option String
deriving DecidableEq, Repr

/-- Result of scanning a found card: the 200 response body, the document as
left in the store, and the number of `doc_ref.update` calls executed. -/
structure ScanResult where
  response : WireResponse
  record : CardRecord
  updates : Nat
deriving DecidableEq, Repr

/-- Expiration check of `scan_card_info` (app.py lines 155-164): when the
`expiration_date` string is truthy, the status is `VALID` and the string
parses to a date strictly before today, the status flips to `EXPIRED` and is
persisted; a `ValueError` from parsing is swallowed. Returns the updated
record and the number of `update` calls. -/
def expirationCheck (card : CardRecord) (now : Now) : CardRecord × Nat :=
  match card.expiration_date with
  | DateField.parsed d =>
      if card.status = "VALID" ∧ d < now.date then
        ({ card with status := "EXPIRED" }, 1)
      else (card, 0)
  | _ => (card, 0)

/-- Cooldown check of `scan_card_info` (app.py lines 166-177): `should_deduct`
stays `true` unless the `last_scan` string is truthy, the current status is
`VALID`, the string parses, and the elapsed time is under 3600 seconds; a
`ValueError` from parsing is swallowed. -/
def cooldownCheck (status : String) (last_scan : TimeField) (now : Now) : Bool :=
  match last_scan with
  | TimeField.parsed t =>
      if status = "VALID" ∧ now.ts - t < 3600 then false else true
  | _ => true

/-- Credit logic of `scan_card_info` (app.py lines 179-191): only when the
current status is `VALID` and `should_deduct` holds; with positive credits it
decrements and persists `credits` and `last_scan = now`, otherwise it flips
and persists `status = INVALID`. Returns the status and credits reported to
the caller, the stored record, and the number of `update` calls. -/
def creditLogic (status : String) (credits : Int) (should_deduct : Bool)
    (card : CardRecord) (now : Now) : String × Int × CardRecord × Nat :=
  if status = "VALID" ∧ should_deduct then
    if credits > 0 then
      ("VALID", credits - 1,
        { card with credits := credits - 1, last_scan := TimeField.parsed now.ts }, 1)
    else
      ("INVALID", credits, { card with status := "INVALID" }, 1)
  else (status, credits, card, 0)

/-- Body of `scan_card_info` for a found document (app.py lines 147-200):
expiration check, cooldown check, credit logic, then the 200 response built
from the reported status and credits, the originally stored
`expiration_date` and the card name. -/
def scan_card_info (card : CardRecord) (now : Now) : ScanResult :=
  let ec := expirationCheck card now
  let should_deduct := cooldownCheck ec.1.status card.last_scan now
  let cl := creditLogic ec.1.status card.credits should_deduct ec.1 now
  { response :=
      { error := none
        status := cl.1
        credits := cl.2.1
        expiration_date := card.expiration_date
        name := some card.name }
    record := cl.2.2.1
    updates := ec.2 + cl.2.2.2 }

/-- The `cards` collection: a map from document id (uppercased UID) to the
stored document. -/
def Store : Type := String → Option CardRecord

/-- The 404 body returned for an unknown UID (app.py lines 201-209). -/
def notFoundResponse : WireResponse :=
  { error := some "Card not found"
    status := "INVALID"
    credits := 0
    expiration_date := DateField.absent
    name := none }

/-- The `/validator/scanCardInfo` route for a well-formed request
(app.py lines 137-209): the UID is uppercased, the document is looked up,
and a found card is scanned and its document rewritten; an unknown UID gets
the 404 body and the store is untouched. Returns the HTTP code, body, and
resulting store. -/
def scanRoute (store : Store) (card_uid : String) (now : Now) :
    (Nat × WireResponse) × Store :=
  let key := card_uid.toUpper
  match store key with
  | some card =>
      let r := scan_card_info card now
      ((200, r.response), fun k => if k = key then some r.record else store k)
  | none => ((404, notFoundResponse), store)

/-- The card-creation route `/validator/cards` POST (app.py lines 401-457):
rejects a negative starting balance (400), a malformed expiration date (400),
a past expiration date (400) and an existing UID (409); otherwise stores a
fresh `VALID` document. Returns the HTTP code and the resulting store. -/
def create_card (store : Store) (uid : String) (credits : Int)
    (expiration_date : DateField) (name : String) (now : Now) : Nat × Store :=
  let key := uid.toUpper
  if credits < 0 then (400, store)
  else
    match expiration_date with
    | DateField.malformed => (400, store)
    | DateField.parsed d =>
        if d < now.date then (400, store)
        else
          match store key with
          | some _ => (409, store)
          | none =>
              (201, fun k => if k = key then
                some { status := "VALID", credits := credits,
                       expiration_date := expiration_date, name := name,
                       last_scan := TimeField.absent }
                else store k)
    | DateField.absent =>
        match store key with
        | some _ => (409, store)
        | none =>
            (201, fun k => if k = key then
              some { status := "VALID", credits := credits,
                     expiration_date := DateField.absent, name := name,
                     last_scan := TimeField.absent }
              else store k)

/-- The top-up route `/validator/cards/<uid>/topup` (app.py lines 353-394):
rejects a non-positive amount (400), 404 on a missing card; otherwise adds
the amount to the stored credits and, when the stored status was `INVALID`,
resets it to `VALID`. Returns the HTTP code and the resulting store. -/
def top_up_card (store : Store) (card_uid : String) (amount : Int) :
    Nat × Store :=
  let key := card_uid.toUpper
  if amount ≤ 0 then (400, store)
  else
    match store key with
    | none => (404, store)
    | some card =>
        let card1 := { card with credits := card.credits + amount }
        let card2 := if card.status = "INVALID"
          then { card1 with status := "VALID" } else card1
        (200, fun k => if k = key then some card2 else store k)

/-- The status route `/validator/cards/<uid>/status` (app.py lines 217-263):
404 on a missing card; setting status to `VALID` is refused (400) when the
stored expiration date parses and is past; otherwise the status is written.
Returns the HTTP code and the resulting store. -/
def update_card_status (store : Store) (card_uid : String)
    (new_status : String) (now : Now) : Nat × Store :=
  let key := card_uid.toUpper
  match store key with
  | none => (404, store)
  | some card =>
      if new_status = "VALID" then
        match card.expiration_date with
        | DateField.parsed d =>
            if d < now.date then (400, store)
            else (200, fun k => if k = key then
              some { card with status := new_status } else store k)
        | _ => (200, fun k => if k = key then
            some { card with status := new_status } else store k)
      else (200, fun k => if k = key then
        some { card with status := new_status } else store k)

/-- The delete route `/validator/cards/<uid>` DELETE (app.py lines 460-477):
404 on a missing card, otherwise the document is removed. -/
def delete_card (store : Store) (card_uid : String) : Nat × Store :=
  let key := card_uid.toUpper
  match store key with
  | none => (404, store)
  | some _ => (200, fun k => if k = key then none else store k)

/-- Store-wide invariant: every stored document has a non-negative balance. -/
def CreditsNonneg (store : Store) : Prop :=
  ∀ k card, store k = some card → 0 ≤ card.credits

/-- Lost-update interleaving of two concurrent scans of the same document
with the server's plain read-compute-write (no transaction, app.py lines
143-191): both requests read the same stored document, each computes its
response and writes, the second write landing last. Returns both responses
and the finally stored document. -/
def racingScans (card : CardRecord) (now1 now2 : Now) :
    WireResponse × WireResponse × CardRecord :=
  let r1 := scan_card_info card now1
  let r2 := scan_card_info card now2
  (r1.response, r2.response, r2.record)

/-- Scanning a card whose stored status is not `VALID` changes nothing: all
three check blocks are guarded by a `VALID` status, so the response echoes
the stored fields and no `update` call runs. -/
lemma scan_skips_not_valid (card : CardRecord) (now : Now)
    (hs : card.status ≠ "VALID") :
    scan_card_info card now =
      { response :=
          { error := none
            status := card.status
            credits := card.credits
            expiration_date := card.expiration_date
            name := some card.name }
        record := card
        updates := 0 } := by
  cases he : card.expiration_date <;> cases hl : card.last_scan <;>
    simp_all [scan_card_info, expirationCheck, cooldownCheck, creditLogic]

/-- Expiration check on a card whose expiration date, when it parses, is not
yet past: nothing changes and no write runs. -/
lemma expirationCheck_skip (card : CardRecord) (now : Now)
    (h : ∀ d, card.expiration_date = DateField.parsed d → ¬ d < now.date) :
    expirationCheck card now = (card, 0) := by
  cases hd : card.expiration_date with
  | absent => simp [expirationCheck, hd]
  | malformed => simp [expirationCheck, hd]
  | parsed d =>
      have hn : ¬ (card.status = "VALID" ∧ d < now.date) := fun hc => h d hd hc.2
      simp only [expirationCheck, hd]
      rw [if_neg hn]

/-- Cooldown check when the last scan, if it parses, is at least an hour
old: deduction stays enabled. -/
lemma cooldownCheck_eq_true (status : String) (last_scan : TimeField)
    (now : Now) (h : ∀ t, last_scan = TimeField.parsed t → ¬ now.ts - t < 3600) :
    cooldownCheck status last_scan now = true := by
  cases last_scan with
  | absent => rfl
  | malformed => rfl
  | parsed t =>
      have hn : ¬ (status = "VALID" ∧ now.ts - t < 3600) :=
        fun hc => h t rfl hc.2
      simp only [cooldownCheck]
      rw [if_neg hn]

/-- Credit logic on a `VALID` card with deduction enabled and positive
credits: one credit is deducted and the last-scan timestamp is written. -/
lemma creditLogic_deduct (status : String) (credits : Int)
    (should_deduct : Bool) (card : CardRecord) (now : Now)
    (hs : status = "VALID") (hd : should_deduct = true) (hc : 0 < credits) :
    creditLogic status credits should_deduct card now =
      ("VALID", credits - 1,
        { card with credits := credits - 1,
                    last_scan := TimeField.parsed now.ts }, 1) := by
  simp only [creditLogic]
  rw [if_pos ⟨hs, hd⟩, if_pos hc]

/-- Credit logic on a `VALID` card with deduction enabled and no credits
left: the status flips to `INVALID` and is written. -/
lemma creditLogic_exhausted (status : String) (credits : Int)
    (should_deduct : Bool) (card : CardRecord) (now : Now)
    (hs : status = "VALID") (hd : should_deduct = true) (hc : ¬ 0 < credits) :
    creditLogic status credits should_deduct card now =
      ("INVALID", credits, { card with status := "INVALID" }, 1) := by
  simp only [creditLogic]
  rw [if_pos ⟨hs, hd⟩, if_neg hc]

/-- Credit logic is skipped whenever the status is not `VALID` or deduction
is disabled. -/
lemma creditLogic_skip (status : String) (credits : Int)
    (should_deduct : Bool) (card : CardRecord) (now : Now)
    (h : ¬ (status = "VALID" ∧ should_deduct = true)) :
    creditLogic status credits should_deduct card now =
      (status, credits, card, 0) := by
  simp only [creditLogic]
  rw [if_neg h]

/-- Full happy path of `scan_card_info`: a `VALID` card with positive
credits, no past parseable expiration and no sub-hour parseable last scan is
charged one credit and stamped with the scan time. -/
lemma scan_card_info_deduct (card : CardRecord) (now : Now)
    (hs : card.status = "VALID") (hc : 0 < card.credits)
    (hexp : ∀ d, card.expiration_date = DateField.parsed d → ¬ d < now.date)
    (hcool : ∀ t, card.last_scan = TimeField.parsed t → ¬ now.ts - t < 3600) :
    scan_card_info card now =
      { response :=
          { error := none
            status := "VALID"
            credits := card.credits - 1
            expiration_date := card.expiration_date
            name := some card.name }
        record := { card with credits := card.credits - 1,
                              last_scan := TimeField.parsed now.ts }
        updates := 1 } := by
  have he := expirationCheck_skip card now hexp
  have hcl := cooldownCheck_eq_true card.status card.last_scan now hcool
  simp only [scan_card_info, he, hcl]
  rw [creditLogic_deduct card.status card.credits true card now hs rfl hc]
  rfl

/-- CLAIM C1: a `VALID` card with positive credits, with its last accepted
scan absent or at least one hour old, and with no expiration date or a
not-yet-past one, scans to outcome `VALID`; the stored credits drop by one
and the stored last-scan timestamp becomes now. -/
theorem scan_valid_deducts (card : CardRecord) (now : Now)
    (hs : card.status = "VALID") (hc : 0 < card.credits)
    (hcool : card.last_scan = TimeField.absent ∨
      ∃ t, card.last_scan = TimeField.parsed t ∧ 3600 ≤ now.ts - t)
    (hexp : card.expiration_date = DateField.absent ∨
      ∃ d, card.expiration_date = DateField.parsed d ∧ ¬ d < now.date) :
    (scan_card_info card now).response.status = "VALID" ∧
    (scan_card_info card now).response.credits = card.credits - 1 ∧
    (scan_card_info card now).record.credits = card.credits - 1 ∧
    (scan_card_info card now).record.last_scan = TimeField.parsed now.ts := by
  have hexp' : ∀ e, card.expiration_date = DateField.parsed e → ¬ e < now.date := by
    intro e he
    rcases hexp with h1 | ⟨d, hd, h2⟩
    · rw [h1] at he; simp at he
    · rw [hd] at he
      injection he with h3
      subst h3
      exact h2
  have hcool' : ∀ u, card.last_scan = TimeField.parsed u → ¬ now.ts - u < 3600 := by
    intro u hu
    rcases hcool with h1 | ⟨t, ht, h2⟩
    · rw [h1] at hu; simp at hu
    · rw [ht] at hu
      injection hu with h3
      subst h3
      omega
  rw [scan_card_info_deduct card now hs hc hexp' hcool']
  exact ⟨rfl, rfl, rfl, rfl⟩

/-- WITNESS for C1: the theorem applied to a concrete fresh card with five
credits and no expiration, scanned at time zero. -/
theorem scan_valid_deducts_witness :
    (scan_card_info
      { status := "VALID", credits := 5, expiration_date := DateField.absent,
        name := "", last_scan := TimeField.absent }
      { date := 0, ts := 0 }).response.status = "VALID" ∧
    (scan_card_info
      { status := "VALID", credits := 5, expiration_date := DateField.absent,
        name := "", last_scan := TimeField.absent }
      { date := 0, ts := 0 }).response.credits = 5 - 1 ∧
    (scan_card_info
      { status := "VALID", credits := 5, expiration_date := DateField.absent,
        name := "", last_scan := TimeField.absent }
      { date := 0, ts := 0 }).record.credits = 5 - 1 ∧
    (scan_card_info
      { status := "VALID", credits := 5, expiration_date := DateField.absent,
        name := "", last_scan := TimeField.absent }
      { date := 0, ts := 0 }).record.last_scan = TimeField.parsed 0 :=
  scan_valid_deducts _ _ rfl (by decide) (Or.inl rfl) (Or.inl rfl)

/-- CLAIM C4: a `VALID` card whose expiration date parses and is strictly
before today scans to outcome `EXPIRED`, the stored status becomes
`EXPIRED`, and credits and last-scan are untouched (no deduction on the scan
that discovers expiration). -/
theorem scan_expired (card : CardRecord) (now : Now) (d : Int)
    (hs : card.status = "VALID") (hd : card.expiration_date = DateField.parsed d)
    (hlt : d < now.date) :
    (scan_card_info card now).response.status = "EXPIRED" ∧
    (scan_card_info card now).record.status = "EXPIRED" ∧
    (scan_card_info card now).record.credits = card.credits ∧
    (scan_card_info card now).record.last_scan = card.last_scan ∧
    (scan_card_info card now).response.credits = card.credits := by
  cases hl : card.last_scan <;>
    simp_all [scan_card_info, expirationCheck, cooldownCheck, creditLogic]

/-- WITNESS for C4: the theorem applied to a concrete card whose expiration
day -1 is strictly before today's day 0. -/
theorem scan_expired_witness :
    (scan_card_info
      { status := "VALID", credits := 7, expiration_date := DateField.parsed (-1),
        name := "", last_scan := TimeField.absent }
      { date := 0, ts := 0 }).response.status = "EXPIRED" ∧
    (scan_card_info
      { status := "VALID", credits := 7, expiration_date := DateField.parsed (-1),
        name := "", last_scan := TimeField.absent }
      { date := 0, ts := 0 }).record.status = "EXPIRED" ∧
    (scan_card_info
      { status := "VALID", credits := 7, expiration_date := DateField.parsed (-1),
        name := "", last_scan := TimeField.absent }
      { date := 0, ts := 0 }).record.credits = 7 ∧
    (scan_card_info
      { status := "VALID", credits := 7, expiration_date := DateField.parsed (-1),
        name := "", last_scan := TimeField.absent }
      { date := 0, ts := 0 }).record.last_scan = TimeField.absent ∧
    (scan_card_info
      { status := "VALID", credits := 7, expiration_date := DateField.parsed (-1),
        name := "", last_scan := TimeField.absent }
      { date := 0, ts := 0 }).response.credits = 7 :=
  scan_expired _ _ (-1) rfl rfl (by decide)

/-- CLAIM C5: scanning a card whose stored status is not `VALID` returns
that status verbatim, leaves the stored record exactly as it was, and
executes no write at all. -/
theorem scan_non_valid_frame (card : CardRecord) (now : Now)
    (hs : card.status ≠ "VALID") :
    (scan_card_info card now).response.status = card.status ∧
    (scan_card_info card now).record = card ∧
    (scan_card_info card now).updates = 0 := by
  rw [scan_skips_not_valid card now hs]
  exact ⟨rfl, rfl, rfl⟩

/-- WITNESS for C5: the theorem applied to a concrete `EXPIRED` card. -/
theorem scan_non_valid_frame_witness :
    (scan_card_info
      { status := "EXPIRED", credits := 3, expiration_date := DateField.parsed 10,
        name := "n", last_scan := TimeField.parsed 4 }
      { date := 20, ts := 5 }).response.status = "EXPIRED" ∧
    (scan_card_info
      { status := "EXPIRED", credits := 3, expiration_date := DateField.parsed 10,
        name := "n", last_scan := TimeField.parsed 4 }
      { date := 20, ts := 5 }).record =
      { status := "EXPIRED", credits := 3, expiration_date := DateField.parsed 10,
        name := "n", last_scan := TimeField.parsed 4 } ∧
    (scan_card_info
      { status := "EXPIRED", credits := 3, expiration_date := DateField.parsed 10,
        name := "n", last_scan := TimeField.parsed 4 }
      { date := 20, ts := 5 }).updates = 0 :=
  scan_non_valid_frame _ _ (by decide)

/-- COUNTEREXAMPLE for C3: a `VALID` card scanned again 10 seconds after its
last accepted scan, but whose expiration date (day -1) is already past, does
not yield VALID: the expiration check runs first and yields EXPIRED. -/
theorem scan_cooldown_claim_counterexample :
    (scan_card_info
      { status := "VALID", credits := 5, expiration_date := DateField.parsed (-1),
        name := "", last_scan := TimeField.parsed 0 }
      { date := 0, ts := 10 }).response.status = "EXPIRED" ∧
    ¬ (scan_card_info
      { status := "VALID", credits := 5, expiration_date := DateField.parsed (-1),
        name := "", last_scan := TimeField.parsed 0 }
      { date := 0, ts := 10 }).response.status = "VALID" := by decide

/-- Cooldown path of `scan_card_info`: a `VALID`, non-expired card whose
last scan is under an hour old is accepted without any change or write. -/
lemma scan_card_info_cooldown (card : CardRecord) (now : Now) (t : Int)
    (hs : card.status = "VALID") (ht : card.last_scan = TimeField.parsed t)
    (hlt : now.ts - t < 3600)
    (hexp : ∀ d, card.expiration_date = DateField.parsed d → ¬ d < now.date) :
    scan_card_info card now =
      { response :=
          { error := none
            status := "VALID"
            credits := card.credits
            expiration_date := card.expiration_date
            name := some card.name }
        record := card
        updates := 0 } := by
  have he := expirationCheck_skip card now hexp
  have hcl : cooldownCheck card.status card.last_scan now = false := by
    simp only [cooldownCheck, ht]
    rw [if_pos ⟨hs, hlt⟩]
  simp only [scan_card_info, he, hcl]
  rw [creditLogic_skip _ _ _ _ _ (fun hc => Bool.noConfusion hc.2)]
  simp only [hs]

/-- CLAIM C3 (amended): a `VALID` card whose last accepted scan is under one
hour old, and whose expiration date, if present and parseable, is not yet
past, scans to outcome `VALID` with unchanged stored credits and last-scan
timestamp and no write. -/
theorem scan_cooldown_no_change (card : CardRecord) (now : Now) (t : Int)
    (hs : card.status = "VALID") (ht : card.last_scan = TimeField.parsed t)
    (hlt : now.ts - t < 3600)
    (hexp : ∀ d, card.expiration_date = DateField.parsed d → ¬ d < now.date) :
    (scan_card_info card now).response.status = "VALID" ∧
    (scan_card_info card now).record.credits = card.credits ∧
    (scan_card_info card now).record.last_scan = card.last_scan ∧
    (scan_card_info card now).updates = 0 := by
  rw [scan_card_info_cooldown card now t hs ht hlt hexp]
  exact ⟨rfl, rfl, rfl, rfl⟩

/-- WITNESS for C3: the theorem applied to a concrete card last scanned 10
seconds ago, with no expiration date. -/
theorem scan_cooldown_no_change_witness :
    (scan_card_info
      { status := "VALID", credits := 5, expiration_date := DateField.absent,
        name := "", last_scan := TimeField.parsed 0 }
      { date := 0, ts := 10 }).response.status = "VALID" ∧
    (scan_card_info
      { status := "VALID", credits := 5, expiration_date := DateField.absent,
        name := "", last_scan := TimeField.parsed 0 }
      { date := 0, ts := 10 }).record.credits = 5 ∧
    (scan_card_info
      { status := "VALID", credits := 5, expiration_date := DateField.absent,
        name := "", last_scan := TimeField.parsed 0 }
      { date := 0, ts := 10 }).record.last_scan = TimeField.parsed 0 ∧
    (scan_card_info
      { status := "VALID", credits := 5, expiration_date := DateField.absent,
        name := "", last_scan := TimeField.parsed 0 }
      { date := 0, ts := 10 }).updates = 0 :=
  scan_cooldown_no_change _ _ 0 rfl rfl (by decide) (by intro d hd; simp at hd)

/-- COUNTEREXAMPLE for C2: a `VALID` card with zero credits and no cooldown
scans to wire status "INVALID", not "INSUFFICIENT_CREDITS": the server never
emits an INSUFFICIENT_CREDITS status. -/
theorem scan_insufficient_claim_counterexample :
    (scan_card_info
      { status := "VALID", credits := 0, expiration_date := DateField.absent,
        name := "", last_scan := TimeField.absent }
      { date := 0, ts := 0 }).response.status = "INVALID" ∧
    ¬ (scan_card_info
      { status := "VALID", credits := 0, expiration_date := DateField.absent,
        name := "", last_scan := TimeField.absent }
      { date := 0, ts := 0 }).response.status = "INSUFFICIENT_CREDITS" := by decide

/-- Exhausted-credits path of `scan_card_info`: a `VALID`, non-expired card
with no credits and no active cooldown is flipped to `INVALID` and the flip
is written. -/
lemma scan_card_info_exhaust (card : CardRecord) (now : Now)
    (hs : card.status = "VALID") (hc : ¬ 0 < card.credits)
    (hexp : ∀ d, card.expiration_date = DateField.parsed d → ¬ d < now.date)
    (hcool : ∀ t, card.last_scan = TimeField.parsed t → ¬ now.ts - t < 3600) :
    scan_card_info card now =
      { response :=
          { error := none
            status := "INVALID"
            credits := card.credits
            expiration_date := card.expiration_date
            name := some card.name }
        record := { card with status := "INVALID" }
        updates := 1 } := by
  have he := expirationCheck_skip card now hexp
  have hcl := cooldownCheck_eq_true card.status card.last_scan now hcool
  simp only [scan_card_info, he, hcl]
  rw [creditLogic_exhausted card.status card.credits true card now hs rfl hc]
  rfl

/-- CLAIM C2 (amended): a `VALID` card with zero credits, no active cooldown
and no past parseable expiration scans to outcome `INVALID` with the status
flip persisted; any subsequent scan of the stored record yields `INVALID`
with no write and no change (no re-evaluation of expiration or credits). -/
theorem scan_zero_credits_invalidates (card : CardRecord) (now now2 : Now)
    (hs : card.status = "VALID") (hc : card.credits = 0)
    (hcool : card.last_scan = TimeField.absent ∨
      ∃ t, card.last_scan = TimeField.parsed t ∧ 3600 ≤ now.ts - t)
    (hexp : card.expiration_date = DateField.absent ∨
      ∃ d, card.expiration_date = DateField.parsed d ∧ ¬ d < now.date) :
    (scan_card_info card now).response.status = "INVALID" ∧
    (scan_card_info card now).record.status = "INVALID" ∧
    (scan_card_info (scan_card_info card now).record now2).response.status = "INVALID" ∧
    (scan_card_info (scan_card_info card now).record now2).record =
      (scan_card_info card now).record ∧
    (scan_card_info (scan_card_info card now).record now2).updates = 0 := by
  have hexp' : ∀ e, card.expiration_date = DateField.parsed e → ¬ e < now.date := by
    intro e he
    rcases hexp with h1 | ⟨d, hd, h2⟩
    · rw [h1] at he; simp at he
    · rw [hd] at he
      injection he with h3
      subst h3
      exact h2
  have hcool' : ∀ u, card.last_scan = TimeField.parsed u → ¬ now.ts - u < 3600 := by
    intro u hu
    rcases hcool with h1 | ⟨t, ht, h2⟩
    · rw [h1] at hu; simp at hu
    · rw [ht] at hu
      injection hu with h3
      subst h3
      omega
  have h1 := scan_card_info_exhaust card now hs (by omega) hexp' hcool'
  have h2 : (scan_card_info card now).record.status = "INVALID" := by rw [h1]
  have hns : (scan_card_info card now).record.status ≠ "VALID" := by
    rw [h2]; decide
  have hskip := scan_skips_not_valid (scan_card_info card now).record now2 hns
  refine ⟨by rw [h1], h2, ?_, ?_, ?_⟩
  · rw [hskip]
    exact h2
  · rw [hskip]
  · rw [hskip]

/-- WITNESS for C2 (amended): the theorem applied to a concrete exhausted
card, with the second scan one day and 5000 seconds later. -/
theorem scan_zero_credits_invalidates_witness :
    (scan_card_info
      { status := "VALID", credits := 0, expiration_date := DateField.absent,
        name := "", last_scan := TimeField.absent }
      { date := 0, ts := 0 }).response.status = "INVALID" ∧
    (scan_card_info
      { status := "VALID", credits := 0, expiration_date := DateField.absent,
        name := "", last_scan := TimeField.absent }
      { date := 0, ts := 0 }).record.status = "INVALID" ∧
    (scan_card_info
      (scan_card_info
        { status := "VALID", credits := 0, expiration_date := DateField.absent,
          name := "", last_scan := TimeField.absent }
        { date := 0, ts := 0 }).record
      { date := 1, ts := 5000 }).response.status = "INVALID" ∧
    (scan_card_info
      (scan_card_info
        { status := "VALID", credits := 0, expiration_date := DateField.absent,
          name := "", last_scan := TimeField.absent }
        { date := 0, ts := 0 }).record
      { date := 1, ts := 5000 }).record =
      (scan_card_info
        { status := "VALID", credits := 0, expiration_date := DateField.absent,
          name := "", last_scan := TimeField.absent }
        { date := 0, ts := 0 }).record ∧
    (scan_card_info
      (scan_card_info
        { status := "VALID", credits := 0, expiration_date := DateField.absent,
          name := "", last_scan := TimeField.absent }
        { date := 0, ts := 0 }).record
      { date := 1, ts := 5000 }).updates = 0 :=
  scan_zero_credits_invalidates _ _ _ rfl rfl (Or.inl rfl) (Or.inl rfl)

/-- CLAIM C10: a `VALID` card whose expiration date string is present but
does not parse is treated as never expiring: the expiration check changes
nothing and writes nothing, and with positive credits and no active cooldown
the scan proceeds to deduct a credit and returns VALID. -/
theorem scan_malformed_expiration_proceeds (card : CardRecord) (now : Now)
    (hs : card.status = "VALID") (hm : card.expiration_date = DateField.malformed)
    (hc : 0 < card.credits)
    (hcool : card.last_scan = TimeField.absent ∨
      ∃ t, card.last_scan = TimeField.parsed t ∧ 3600 ≤ now.ts - t) :
    expirationCheck card now = (card, 0) ∧
    (scan_card_info card now).response.status = "VALID" ∧
    (scan_card_info card now).record.status = "VALID" ∧
    (scan_card_info card now).record.credits = card.credits - 1 ∧
    (scan_card_info card now).record.last_scan = TimeField.parsed now.ts := by
  have hexp' : ∀ e, card.expiration_date = DateField.parsed e → ¬ e < now.date := by
    intro e he
    rw [hm] at he
    simp at he
  have hcool' : ∀ u, card.last_scan = TimeField.parsed u → ¬ now.ts - u < 3600 := by
    intro u hu
    rcases hcool with h1 | ⟨t, ht, h2⟩
    · rw [h1] at hu; simp at hu
    · rw [ht] at hu
      injection hu with h3
      subst h3
      omega
  refine ⟨expirationCheck_skip card now hexp', ?_⟩
  rw [scan_card_info_deduct card now hs hc hexp' hcool']
  exact ⟨rfl, hs, rfl, rfl⟩

/-- WITNESS for C10: the theorem applied to a concrete card whose expiration
field is a truthy but unparseable string. -/
theorem scan_malformed_expiration_proceeds_witness :
    expirationCheck
      { status := "VALID", credits := 2, expiration_date := DateField.malformed,
        name := "", last_scan := TimeField.absent }
      { date := 0, ts := 0 } =
      ({ status := "VALID", credits := 2, expiration_date := DateField.malformed,
         name := "", last_scan := TimeField.absent }, 0) ∧
    (scan_card_info
      { status := "VALID", credits := 2, expiration_date := DateField.malformed,
        name := "", last_scan := TimeField.absent }
      { date := 0, ts := 0 }).response.status = "VALID" ∧
    (scan_card_info
      { status := "VALID", credits := 2, expiration_date := DateField.malformed,
        name := "", last_scan := TimeField.absent }
      { date := 0, ts := 0 }).record.status = "VALID" ∧
    (scan_card_info
      { status := "VALID", credits := 2, expiration_date := DateField.malformed,
        name := "", last_scan := TimeField.absent }
      { date := 0, ts := 0 }).record.credits = 2 - 1 ∧
    (scan_card_info
      { status := "VALID", credits := 2, expiration_date := DateField.malformed,
        name := "", last_scan := TimeField.absent }
      { date := 0, ts := 0 }).record.last_scan = TimeField.parsed 0 :=
  scan_malformed_expiration_proceeds _ _ rfl rfl (by decide) (Or.inl rfl)

/-- Expired path of `scan_card_info`: a `VALID` card whose expiration date
parses and is past is flipped to `EXPIRED`, the flip is written, and the
cooldown and credit blocks are skipped. -/
lemma scan_card_info_expired (card : CardRecord) (now : Now) (d : Int)
    (hs : card.status = "VALID") (hd : card.expiration_date = DateField.parsed d)
    (hlt : d < now.date) :
    scan_card_info card now =
      { response :=
          { error := none
            status := "EXPIRED"
            credits := card.credits
            expiration_date := card.expiration_date
            name := some card.name }
        record := { card with status := "EXPIRED" }
        updates := 1 } := by
  have he : expirationCheck card now = ({ card with status := "EXPIRED" }, 1) := by
    simp only [expirationCheck, hd]
    rw [if_pos ⟨hs, hlt⟩]
  simp only [scan_card_info, he]
  rw [creditLogic_skip _ _ _ _ _ (fun hc => absurd hc.1 (by decide))]
  rfl

/-- Exhaustive characterization of the document a scan leaves behind: either
it is untouched, or the card was `VALID` and was flipped to `EXPIRED`,
flipped to `INVALID` with no credits left, or charged one credit. This is
the case split behind the status-transition and balance invariants. Variant
restricted to a no-op expiration check. -/
lemma scan_record_cases_of_skip (card : CardRecord) (now : Now)
    (he : expirationCheck card now = (card, 0)) :
    (scan_card_info card now).record = card ∨
    (card.status = "VALID" ∧
      (((scan_card_info card now).record = { card with status := "INVALID" } ∧
          ¬ 0 < card.credits) ∨
       ((scan_card_info card now).record =
          { card with credits := card.credits - 1,
                      last_scan := TimeField.parsed now.ts } ∧
          0 < card.credits))) := by
  cases hb : cooldownCheck card.status card.last_scan now with
  | false =>
      simp only [scan_card_info, he, hb]
      rw [creditLogic_skip _ _ _ _ _ (fun hc => Bool.noConfusion hc.2)]
      exact Or.inl rfl
  | true =>
      by_cases hs : card.status = "VALID"
      · by_cases hc : 0 < card.credits
        · simp only [scan_card_info, he, hb]
          rw [creditLogic_deduct card.status card.credits true card now hs rfl hc]
          exact Or.inr ⟨hs, Or.inr ⟨rfl, hc⟩⟩
        · simp only [scan_card_info, he, hb]
          rw [creditLogic_exhausted card.status card.credits true card now hs rfl hc]
          exact Or.inr ⟨hs, Or.inl ⟨rfl, hc⟩⟩
      · simp only [scan_card_info, he, hb]
        rw [creditLogic_skip _ _ _ _ _ (fun hc => hs hc.1)]
        exact Or.inl rfl

/-- Exhaustive characterization of the document a scan leaves behind, for an
arbitrary card. -/
lemma scan_record_cases (card : CardRecord) (now : Now) :
    (scan_card_info card now).record = card ∨
    (card.status = "VALID" ∧
      ((scan_card_info card now).record = { card with status := "EXPIRED" } ∨
       ((scan_card_info card now).record = { card with status := "INVALID" } ∧
          ¬ 0 < card.credits) ∨
       ((scan_card_info card now).record =
          { card with credits := card.credits - 1,
                      last_scan := TimeField.parsed now.ts } ∧
          0 < card.credits))) := by
  by_cases hs : card.status = "VALID"
  · cases hd : card.expiration_date with
    | absent =>
        rw [← hd]
        have he := expirationCheck_skip card now
          (by intro e h; rw [hd] at h; simp at h)
        rcases scan_record_cases_of_skip card now he with h | ⟨h1, h2 | h2⟩
        · exact Or.inl h
        · exact Or.inr ⟨h1, Or.inr (Or.inl h2)⟩
        · exact Or.inr ⟨h1, Or.inr (Or.inr h2)⟩
    | malformed =>
        rw [← hd]
        have he := expirationCheck_skip card now
          (by intro e h; rw [hd] at h; simp at h)
        rcases scan_record_cases_of_skip card now he with h | ⟨h1, h2 | h2⟩
        · exact Or.inl h
        · exact Or.inr ⟨h1, Or.inr (Or.inl h2)⟩
        · exact Or.inr ⟨h1, Or.inr (Or.inr h2)⟩
    | parsed d =>
        rw [← hd]
        by_cases hlt : d < now.date
        · rw [scan_card_info_expired card now d hs hd hlt]
          exact Or.inr ⟨hs, Or.inl rfl⟩
        · have he := expirationCheck_skip card now
            (by intro e h; rw [hd] at h; injection h with h3; subst h3; exact hlt)
          rcases scan_record_cases_of_skip card now he with h | ⟨h1, h2 | h2⟩
          · exact Or.inl h
          · exact Or.inr ⟨h1, Or.inr (Or.inl h2)⟩
          · exact Or.inr ⟨h1, Or.inr (Or.inr h2)⟩
  · rw [scan_skips_not_valid card now hs]
    exact Or.inl rfl

/-- CLAIM C8: a scan never creates or deletes a document (every key is
present after the scan exactly when it was present before), a scanned
document is `VALID` afterwards only if it already was `VALID`, and the only
status changes a scan makes start from `VALID` and go to `EXPIRED` or
`INVALID`. -/
theorem scan_never_validates (store : Store) (uid : String) (now : Now) :
    (∀ k, (((scanRoute store uid now).2 : Store) k).isSome = ((store : Store) k).isSome) ∧
    (∀ k card', ((scanRoute store uid now).2 : Store) k = some card' →
      card'.status = "VALID" →
      ∃ card, (store : Store) k = some card ∧ card.status = "VALID") ∧
    (∀ k card card', (store : Store) k = some card →
      ((scanRoute store uid now).2 : Store) k = some card' →
      card'.status = card.status ∨
      (card.status = "VALID" ∧
        (card'.status = "EXPIRED" ∨ card'.status = "INVALID"))) := by
  cases hm : (store : Store) uid.toUpper with
  | none =>
      have hr : (scanRoute store uid now).2 = store := by
        simp only [scanRoute, hm]
      rw [hr]
      refine ⟨fun k => rfl, fun k card' h1 h2 => ⟨card', h1, h2⟩, ?_⟩
      intro k card card' h1 h2
      rw [h1] at h2
      injection h2 with h3
      rw [← h3]
      exact Or.inl rfl
  | some card0 =>
      simp only [scanRoute, hm]
      have hrc := scan_record_cases card0 now
      refine ⟨?_, ?_, ?_⟩
      · intro k
        by_cases hk : k = uid.toUpper
        · subst hk
          rw [if_pos rfl, hm]
          rfl
        · rw [if_neg hk]
      · intro k card' h1 h2
        by_cases hk : k = uid.toUpper
        · subst hk
          rw [if_pos rfl] at h1
          injection h1 with h1'
          refine ⟨card0, hm, ?_⟩
          rcases hrc with h | ⟨h3, -⟩
          · rw [← h1', h] at h2
            exact h2
          · exact h3
        · rw [if_neg hk] at h1
          exact ⟨card', h1, h2⟩
      · intro k card card' h1 h2
        by_cases hk : k = uid.toUpper
        · subst hk
          rw [hm] at h1
          injection h1 with h1'
          subst h1'
          rw [if_pos rfl] at h2
          injection h2 with h2'
          rcases hrc with h | ⟨h3, h | ⟨h, -⟩ | ⟨h, -⟩⟩
          · rw [← h2', h]
            exact Or.inl rfl
          · rw [← h2', h]
            exact Or.inr ⟨h3, Or.inl rfl⟩
          · rw [← h2', h]
            exact Or.inr ⟨h3, Or.inr rfl⟩
          · rw [← h2', h]
            exact Or.inl rfl
        · rw [if_neg hk] at h2
          rw [h1] at h2
          injection h2 with h3
          rw [← h3]
          exact Or.inl rfl

/-- CLAIM C7: scanning a UID with no stored document answers 404 with the
exact wire body of the source and leaves the store untouched: no document is
created, modified or deleted. -/
theorem scan_unknown_uid (store : Store) (uid : String) (now : Now)
    (h : (store : Store) uid.toUpper = none) :
    (scanRoute store uid now).1.1 = 404 ∧
    (scanRoute store uid now).1.2 =
      { error := some "Card not found", status := "INVALID", credits := 0,
        expiration_date := DateField.absent, name := none } ∧
    (scanRoute store uid now).2 = store := by
  have hr : scanRoute store uid now = ((404, notFoundResponse), store) := by
    simp only [scanRoute, h]
  rw [hr]
  exact ⟨rfl, rfl, rfl⟩

/-- WITNESS for C7: the theorem applied to the empty store and the UID
"DEADBEEF". -/
theorem scan_unknown_uid_witness :
    (scanRoute (fun _ => none) "DEADBEEF" { date := 0, ts := 0 }).1.1 = 404 ∧
    (scanRoute (fun _ => none) "DEADBEEF" { date := 0, ts := 0 }).1.2 =
      { error := some "Card not found", status := "INVALID", credits := 0,
        expiration_date := DateField.absent, name := none } ∧
    (scanRoute (fun _ => none) "DEADBEEF" { date := 0, ts := 0 }).2 =
      (fun _ => none) :=
  scan_unknown_uid (fun _ => none) "DEADBEEF" { date := 0, ts := 0 } rfl

/-- CLAIM C6: the invariant that every stored balance is non-negative is
preserved by every modelled operation: a scan (which deducts only from a
positive balance), card creation (which rejects a negative starting
balance), top-up (which only adds a strictly positive amount), a status
update and a delete. -/
theorem credits_nonneg_invariant (store : Store) (h : CreditsNonneg store) :
    (∀ uid now, CreditsNonneg (scanRoute store uid now).2) ∧
    (∀ uid credits expiration_date name now,
      CreditsNonneg (create_card store uid credits expiration_date name now).2) ∧
    (∀ uid amount, CreditsNonneg (top_up_card store uid amount).2) ∧
    (∀ uid new_status now,
      CreditsNonneg (update_card_status store uid new_status now).2) ∧
    (∀ uid, CreditsNonneg (delete_card store uid).2) := by
  refine ⟨?_, ?_, ?_, ?_, ?_⟩
  · intro uid now k card' hk
    cases hm : (store : Store) uid.toUpper with
    | none =>
        simp only [scanRoute, hm] at hk
        exact h k card' hk
    | some card =>
        simp only [scanRoute, hm] at hk
        by_cases hke : k = uid.toUpper
        · rw [if_pos hke] at hk
          injection hk with hk'
          have h0 := h uid.toUpper card hm
          rcases scan_record_cases card now with hc | ⟨-, hc | ⟨hc, hpos⟩ | ⟨hc, hpos⟩⟩ <;>
            rw [← hk', hc] <;> simp <;> omega
        · rw [if_neg hke] at hk
          exact h k card' hk
  · intro uid credits expiration_date name now k card' hk
    by_cases hneg : credits < 0
    · simp only [create_card, if_pos hneg] at hk
      exact h k card' hk
    · cases expiration_date with
      | malformed =>
          simp only [create_card, if_neg hneg] at hk
          exact h k card' hk
      | absent =>
          simp only [create_card, if_neg hneg] at hk
          split at hk
          · exact h k card' hk
          · have hk2 : (if k = uid.toUpper then
                some { status := "VALID", credits := credits,
                       expiration_date := DateField.absent, name := name,
                       last_scan := TimeField.absent : CardRecord }
                else (store : Store) k) = some card' := hk
            by_cases hke : k = uid.toUpper
            · rw [if_pos hke] at hk2
              injection hk2 with he
              rw [← he]
              simp
              omega
            · rw [if_neg hke] at hk2
              exact h k card' hk2
      | parsed d =>
          by_cases hlt : d < now.date
          · simp only [create_card, if_neg hneg, if_pos hlt] at hk
            exact h k card' hk
          · simp only [create_card, if_neg hneg, if_neg hlt] at hk
            split at hk
            · exact h k card' hk
            · have hk2 : (if k = uid.toUpper then
                  some { status := "VALID", credits := credits,
                         expiration_date := DateField.parsed d, name := name,
                         last_scan := TimeField.absent : CardRecord }
                  else (store : Store) k) = some card' := hk
              by_cases hke : k = uid.toUpper
              · rw [if_pos hke] at hk2
                injection hk2 with he
                rw [← he]
                simp
                omega
              · rw [if_neg hke] at hk2
                exact h k card' hk2
  · intro uid amount k card' hk
    by_cases ha : amount ≤ 0
    · simp only [top_up_card, if_pos ha] at hk
      exact h k card' hk
    · simp only [top_up_card, if_neg ha] at hk
      split at hk
      · exact h k card' hk
      · rename_i card hm
        have hk2 : (if k = uid.toUpper then
            some (if card.status = "INVALID" then
              { status := "VALID", credits := card.credits + amount,
                expiration_date := card.expiration_date, name := card.name,
                last_scan := card.last_scan : CardRecord }
              else { card with credits := card.credits + amount })
            else (store : Store) k) = some card' := hk
        by_cases hke : k = uid.toUpper
        · rw [if_pos hke] at hk2
          injection hk2 with he
          have h0 := h uid.toUpper card hm
          rw [← he]
          by_cases hst : card.status = "INVALID" <;> simp [hst] <;> omega
        · rw [if_neg hke] at hk2
          exact h k card' hk2
  · intro uid new_status now k card' hk
    cases hm : (store : Store) uid.toUpper with
    | none =>
        simp only [update_card_status, hm] at hk
        exact h k card' hk
    | some card =>
        simp only [update_card_status, hm] at hk
        have h0 := h uid.toUpper card hm
        have hgen : ∀ v : CardRecord, v.credits = card.credits →
            ((fun k2 => if k2 = uid.toUpper then some v else (store : Store) k2) k
              = some card') →
            0 ≤ card'.credits := by
          intro v hv hkv
          have hkv2 : (if k = uid.toUpper then some v else (store : Store) k)
              = some card' := hkv
          by_cases hke : k = uid.toUpper
          · rw [if_pos hke] at hkv2
            injection hkv2 with he
            rw [← he, hv]
            exact h0
          · rw [if_neg hke] at hkv2
            exact h k card' hkv2
        by_cases hv : new_status = "VALID"
        · rw [if_pos hv] at hk
          split at hk
          · split at hk
            · exact h k card' hk
            · exact hgen { card with status := new_status } rfl hk
          · exact hgen { card with status := new_status } rfl hk
        · rw [if_neg hv] at hk
          exact hgen { card with status := new_status } rfl hk
  · intro uid k card' hk
    cases hm : (store : Store) uid.toUpper with
    | none =>
        simp only [delete_card, hm] at hk
        exact h k card' hk
    | some card =>
        simp only [delete_card, hm] at hk
        by_cases hke : k = uid.toUpper
        · rw [if_pos hke] at hk
          exact absurd hk (by simp)
        · rw [if_neg hke] at hk
          exact h k card' hk

/-- WITNESS for C6: the theorem applied to the empty store, exercising the
top-up branch with a concrete UID and amount. -/
theorem credits_nonneg_invariant_witness :
    CreditsNonneg (fun _ => none) ∧
    CreditsNonneg (top_up_card (fun _ => none) "AB" 5).2 :=
  have h : CreditsNonneg (fun _ => none) := fun _ _ hk => nomatch hk
  ⟨h, (credits_nonneg_invariant (fun _ => none) h).2.2.1 "AB" 5⟩

/-- CLAIM C9 refuted on the code: with the server's plain read-compute-write
and no transaction, two racing scans of the same card holding a single
credit can both read the original document before either write lands; both
then answer VALID and the final stored balance is 0, so the claimed
"exactly one VALID, the other INSUFFICIENT_CREDITS" does not hold. -/
theorem racing_scans_lost_update :
    (racingScans
      { status := "VALID", credits := 1, expiration_date := DateField.absent,
        name := "", last_scan := TimeField.absent }
      { date := 0, ts := 0 } { date := 0, ts := 1 }).1.status = "VALID" ∧
    (racingScans
      { status := "VALID", credits := 1, expiration_date := DateField.absent,
        name := "", last_scan := TimeField.absent }
      { date := 0, ts := 0 } { date := 0, ts := 1 }).2.1.status = "VALID" ∧
    (racingScans
      { status := "VALID", credits := 1, expiration_date := DateField.absent,
        name := "", last_scan := TimeField.absent }
      { date := 0, ts := 0 } { date := 0, ts := 1 }).2.2.credits = 0 := by
  decide
